import Mathlib

/-!
Verification of the inbound-event processing core of the line_agent_tstack
server: a shallow embedding, in Lean 4, of the webhook ingestion gate, the
message deduplication pipeline, the AI-assisted event creation, the error
normalizer and the RPC authorization policy, together with theorems settling
the specified properties against this embedding.

Conventions of the embedding:
- JavaScript values that may be absent (undefined / null) are Options.
- JavaScript truthiness on strings and numbers is modelled explicitly
  (empty string and 0 are falsy).
- Timestamps are Int epoch milliseconds; a JavaScript Invalid Date is
  modelled as Option.none on date-valued columns.
- External I/O (the AI endpoint, the platform content download) is passed
  in as explicit outcome parameters, so each pipeline function is a pure
  state transformer from the datastore plus the external responses.
-/

/-! ## JavaScript semantics helpers -/

/-- Truthiness of a possibly absent string: undefined, null and the empty
string are falsy. -/
def optStrTruthy : Option String → Bool
  | some s => s != ""
  | Option.none => false

/-- Truthiness of a possibly absent number: undefined and 0 are falsy. -/
def optNatTruthy : Option Nat → Bool
  | some n => n != 0
  | Option.none => false

/-- The JavaScript expression a logical-or b on strings: the first operand
if it is truthy, otherwise the second. -/
def jsOrString (a b : String) : String :=
  if a != "" then a else b

/-- The JavaScript expression a logical-or b on possibly absent strings. -/
def jsOr (a b : Option String) : Option String :=
  if optStrTruthy a then a else b

/-- Template-literal stringification of a possibly absent string. -/
def optToString : Option String → String
  | some s => s
  | Option.none => "undefined"

/-- Whether pat is a prefix of l, comparing characters. -/
def listIsPrefix : List Char → List Char → Bool
  | [], _ => true
  | _ :: _, [] => false
  | a :: as, b :: bs => a == b && listIsPrefix as bs

/-- Whether pat occurs as a contiguous sublist of l. -/
def listContainsSub (pat : List Char) : List Char → Bool
  | [] => pat.isEmpty
  | b :: bs => listIsPrefix pat (b :: bs) || listContainsSub pat bs

/-- The JavaScript String.prototype.includes check. -/
def strIncludes (s pat : String) : Bool :=
  listContainsSub pat.data s.data

/-! ## Error normalizer (lib/enhanced-error-handler.ts) -/

/-- The ErrorType enumeration of the error handler. -/
inductive ErrorType
  | validation
  | authentication
  | authorization
  | not_found
  | conflict
  | rate_limit
  | external_api
  | database
  | file_system
  | ai_service
  | internal
deriving DecidableEq, Repr

/-- The ErrorSeverity enumeration of the error handler. -/
inductive ErrorSeverity
  | low
  | medium
  | high
  | critical
deriving DecidableEq, Repr

/-- The AppError class: the normalized error representation. -/
structure AppError where
  type_ : ErrorType
  code : String
  message : String
  userMessage : String
  statusCode : Nat
  severity : ErrorSeverity
deriving DecidableEq, Repr

def ErrorFactory.validation (code message userMessage : String) : AppError :=
  { type_ := ErrorType.validation, code, message, userMessage,
    statusCode := 400, severity := ErrorSeverity.low }

def ErrorFactory.authentication (code message : String)
    (userMessage : String := "身份驗證失敗") : AppError :=
  { type_ := ErrorType.authentication, code, message, userMessage,
    statusCode := 401, severity := ErrorSeverity.medium }

def ErrorFactory.authorization (code message : String)
    (userMessage : String := "沒有權限執行此操作") : AppError :=
  { type_ := ErrorType.authorization, code, message, userMessage,
    statusCode := 403, severity := ErrorSeverity.medium }

def ErrorFactory.notFound (code message : String)
    (userMessage : String := "請求的資源不存在") : AppError :=
  { type_ := ErrorType.not_found, code, message, userMessage,
    statusCode := 404, severity := ErrorSeverity.low }

def ErrorFactory.conflict (code message userMessage : String) : AppError :=
  { type_ := ErrorType.conflict, code, message, userMessage,
    statusCode := 409, severity := ErrorSeverity.medium }

def ErrorFactory.externalApi (code message : String)
    (userMessage : String := "外部服務暫時不可用") : AppError :=
  { type_ := ErrorType.external_api, code, message, userMessage,
    statusCode := 502, severity := ErrorSeverity.high }

def ErrorFactory.database (code message : String)
    (userMessage : String := "數據操作失敗") : AppError :=
  { type_ := ErrorType.database, code, message, userMessage,
    statusCode := 500, severity := ErrorSeverity.high }

def ErrorFactory.aiService (code message : String)
    (userMessage : String := "AI 服務暫時不可用") : AppError :=
  { type_ := ErrorType.ai_service, code, message, userMessage,
    statusCode := 503, severity := ErrorSeverity.medium }

def ErrorFactory.internal (code message : String)
    (userMessage : String := "服務器內部錯誤") : AppError :=
  { type_ := ErrorType.internal, code, message, userMessage,
    statusCode := 500, severity := ErrorSeverity.critical }

/-- One issue of a Zod validation error. -/
structure ZodIssue where
  path : List String
  message : String
  code : String
  expected : Option String
  validation : Option String
  minimum : Option Int
  maximum : Option Int
  options : Option (List String)
deriving DecidableEq, Repr

/-- A Zod validation error: a list of issues.  A ZodError produced by Zod
always carries at least one issue. -/
structure ZodError where
  issues : List ZodIssue
deriving DecidableEq, Repr

/-- The Axios response sub-object carried by an HTTP client error:
status and the message and error fields of the response data. -/
structure AxiosResponse where
  status : Option Nat
  dataMessage : Option String
  dataError : Option String
deriving DecidableEq, Repr

/-- A standard JavaScript Error together with the dynamic properties the
handler probes for: a carried statusCode and code (pre-normalized
publicProcedure errors), a preserved zodError, and an Axios response. -/
structure StdError where
  name : String
  message : String
  stack : Option String
  statusCode : Option Nat
  code : Option String
  zodError : Option ZodError
  response : Option AxiosResponse
deriving DecidableEq, Repr

/-- The input space of ErrorHandler.handle, split the way its instanceof
chain splits it: an AppError, a ZodError, any other Error, or a non-Error
value (held by its JSON serialization). -/
inductive ErrValue
  | appError (a : AppError)
  | zodError (z : ZodError)
  | stdError (e : StdError)
  | nonError (serialized : String)
deriving DecidableEq, Repr

/-- A plain Error value carrying only a name and a message. -/
def plainError (name message : String) : ErrValue :=
  ErrValue.stdError
    { name, message, stack := Option.none, statusCode := Option.none,
      code := Option.none, zodError := Option.none, response := Option.none }

/-- ErrorHandler.getZodErrorUserMessage: the per-issue templated user
message, switching on the structural kind of the issue. -/
def getZodErrorUserMessage (issue : ZodIssue) (fieldName : String) : String :=
  if issue.code == "invalid_type" then
    "欄位「" ++ fieldName ++ "」的資料類型錯誤，期望為 " ++ optToString issue.expected
  else if issue.code == "invalid_string" then
    if issue.validation == some "email" then
      "欄位「" ++ fieldName ++ "」必須是有效的電子郵件地址"
    else if issue.validation == some "url" then
      "欄位「" ++ fieldName ++ "」必須是有效的網址"
    else if issue.validation == some "uuid" then
      "欄位「" ++ fieldName ++ "」必須是有效的UUID格式"
    else "欄位「" ++ fieldName ++ "」格式錯誤"
  else if issue.code == "too_small" then
    "欄位「" ++ fieldName ++ "」的值太小，最小值為 " ++
      (match issue.minimum with
        | some n => toString n
        | Option.none => "undefined")
  else if issue.code == "too_big" then
    "欄位「" ++ fieldName ++ "」的值太大，最大值為 " ++
      (match issue.maximum with
        | some n => toString n
        | Option.none => "undefined")
  else if issue.code == "invalid_enum_value" then
    "欄位「" ++ fieldName ++ "」的值無效，可選值為：" ++
      (match issue.options with
        | some l => String.intercalate "、" l
        | Option.none => "undefined")
  else if issue.code == "invalid_date" then
    "欄位「" ++ fieldName ++ "」必須是有效的日期格式"
  else if issue.code == "custom" then
    "欄位「" ++ fieldName ++ "」" ++ issue.message
  else if strIncludes issue.message.toLower "required" then
    "必填欄位「" ++ fieldName ++ "」不能為空"
  else
    "欄位「" ++ fieldName ++ "」驗證失敗"

/-- The field-qualified message built for one issue of the issue list. -/
def zodIssueLine (issue : ZodIssue) : String :=
  let path := jsOrString (String.intercalate "." issue.path) "未知欄位"
  if issue.message != "" && issue.message != "Invalid input" then
    path ++ ": " ++ issue.message
  else
    path ++ ": " ++ getZodErrorUserMessage issue path

/-- ErrorHandler.handleZodError.  A ZodError coming from Zod always has a
first issue; the empty-issues branch is kept only to make the function
total. -/
def handleZodError (z : ZodError) : AppError :=
  let fieldName :=
    match z.issues.head? with
    | some i => jsOrString (String.intercalate "." i.path) "未知欄位"
    | Option.none => "未知欄位"
  let userMessage :=
    match z.issues.head? with
    | some i =>
      if i.message != "" && i.message != "Invalid input" then i.message
      else getZodErrorUserMessage i fieldName
    | Option.none => "輸入資料格式錯誤"
  let allErrors := z.issues.map zodIssueLine
  ErrorFactory.validation "VALIDATION_ERROR"
    ("Zod validation failed: " ++ String.intercalate ", " allErrors)
    userMessage

/-- ErrorHandler.isAxiosError: the error carries a response sub-object. -/
def isAxiosError (e : StdError) : Bool :=
  e.response.isSome

/-- ErrorHandler.handleAxiosError. -/
def handleAxiosError (e : StdError) : AppError :=
  let dataMessage := e.response.bind AxiosResponse.dataMessage
  let dataError := e.response.bind AxiosResponse.dataError
  let errorMessage :=
    if optStrTruthy dataMessage then dataMessage.getD ""
    else if optStrTruthy dataError then dataError.getD ""
    else e.message
  if strIncludes errorMessage "Invalid reply token" then
    ErrorFactory.externalApi "INVALID_REPLY_TOKEN" "Reply token 已過期"
      "訊息已過期，無法回覆"
  else if strIncludes errorMessage "Too Many Requests" then
    ErrorFactory.externalApi "RATE_LIMIT" "API 請求頻率過高"
      "請求過於頻繁，請稍後再試"
  else if strIncludes errorMessage "Invalid access token" then
    ErrorFactory.authentication "INVALID_ACCESS_TOKEN" "Access token 無效" "認證失敗"
  else
    match e.response.bind AxiosResponse.status with
    | some status =>
      if 400 ≤ status ∧ status < 500 then
        ErrorFactory.externalApi ("HTTP_" ++ toString status)
          ("客戶端錯誤 (" ++ toString status ++ "): " ++ errorMessage)
          "請求格式錯誤"
      else if 500 ≤ status then
        ErrorFactory.externalApi ("HTTP_" ++ toString status)
          ("伺服器錯誤 (" ++ toString status ++ ")")
          "外部服務暫時不可用"
      else
        ErrorFactory.externalApi "NETWORK_ERROR"
          ("網路請求失敗: " ++ errorMessage) "網路連線失敗"
    | Option.none =>
      ErrorFactory.externalApi "NETWORK_ERROR"
        ("網路請求失敗: " ++ errorMessage) "網路連線失敗"

/-- ErrorHandler.isD1DatabaseError: substring detection over message plus
stack. -/
def isD1DatabaseError (e : StdError) : Bool :=
  let errorText := e.message ++ e.stack.getD ""
  strIncludes errorText "D1_ERROR" ||
  strIncludes errorText "DrizzleQueryError" ||
  strIncludes errorText "UNIQUE constraint failed" ||
  strIncludes errorText "FOREIGN KEY constraint failed" ||
  strIncludes errorText "NOT NULL constraint failed" ||
  strIncludes errorText "CHECK constraint failed"

/-- ErrorHandler.handleD1DatabaseError. -/
def handleD1DatabaseError (e : StdError) : AppError :=
  let errorText := e.message ++ e.stack.getD ""
  if strIncludes errorText "UNIQUE constraint failed" then
    let userMessage :=
      if strIncludes errorText "message_id" then "此訊息已經處理過，請勿重複提交"
      else if strIncludes errorText "user_id" then "用戶ID重複"
      else "資料重複"
    ErrorFactory.conflict "UNIQUE_CONSTRAINT"
      ("D1 唯一約束錯誤: " ++ e.message) userMessage
  else if strIncludes errorText "FOREIGN KEY constraint failed" then
    ErrorFactory.database "FOREIGN_KEY_CONSTRAINT"
      ("D1 外鍵約束錯誤: " ++ e.message) "資料關聯錯誤"
  else if strIncludes errorText "NOT NULL constraint failed" then
    ErrorFactory.database "NOT_NULL_CONSTRAINT"
      ("D1 非空約束錯誤: " ++ e.message) "必要資料缺失"
  else if strIncludes errorText "CHECK constraint failed" then
    ErrorFactory.database "CHECK_CONSTRAINT"
      ("D1 檢查約束錯誤: " ++ e.message) "資料格式錯誤"
  else
    ErrorFactory.database "DATABASE_ERROR"
      ("D1 資料庫錯誤: " ++ e.message) "數據操作失敗"

/-- ErrorHandler.handleStandardError: the ordered probe chain for a standard
Error (pre-normalized status and code, Axios shape, D1 substrings, then the
message heuristics). -/
def handleStandardError (e : StdError) : AppError :=
  if optNatTruthy e.statusCode && optStrTruthy e.code then
    match e.zodError with
    | some z => handleZodError z
    | Option.none =>
      let code := e.code.getD ""
      let sc := e.statusCode.getD 0
      if sc == 400 then ErrorFactory.validation code e.message e.message
      else if sc == 401 then ErrorFactory.authentication code e.message e.message
      else if sc == 403 then ErrorFactory.authorization code e.message e.message
      else if sc == 404 then ErrorFactory.notFound code e.message e.message
      else if sc == 409 then ErrorFactory.conflict code e.message e.message
      else ErrorFactory.internal code e.message e.message
  else if isAxiosError e then handleAxiosError e
  else if isD1DatabaseError e then handleD1DatabaseError e
  else if e.name == "ValidationError" then
    ErrorFactory.validation "VALIDATION_ERROR" e.message "輸入數據無效"
  else if strIncludes e.message "token" then
    ErrorFactory.authentication "AUTH_TOKEN_ERROR" e.message "身份驗證失敗"
  else if strIncludes e.message "permission" || strIncludes e.message "unauthorized" then
    ErrorFactory.authorization "PERMISSION_ERROR" e.message "沒有權限執行此操作"
  else if strIncludes e.message "not found" then
    ErrorFactory.notFound "RESOURCE_NOT_FOUND" e.message "請求的資源不存在"
  else
    ErrorFactory.internal "INTERNAL_ERROR" e.message "服務器內部錯誤"

/-- ErrorHandler.handle: classify any input into exactly one AppError. -/
def ErrorHandler.handle : ErrValue → AppError
  | ErrValue.appError a => a
  | ErrValue.zodError z => handleZodError z
  | ErrValue.stdError e => handleStandardError e
  | ErrValue.nonError serialized =>
    ErrorFactory.internal "UNKNOWN_ERROR" ("Unknown error: " ++ serialized)
      "發生了未知錯誤"

/-! ## Webhook ingestion gate (webhook/handler.ts) -/

def WEBHOOK_RESPONSE.SUCCESS : String := "OK"

def WEBHOOK_RESPONSE.INVALID_REPLY_TOKEN : String :=
  "Reply token has expired or invalid"

/-- The error value a webhook event handler may reject with, as the gate
probes it: the optional chain error response data message. -/
structure WebhookError where
  responseDataMessage : Option String
deriving DecidableEq, Repr

/-- The catch condition of handleWebhook. -/
def errMatchesInvalidReplyToken (e : WebhookError) : Bool :=
  match e.responseDataMessage with
  | some m => strIncludes m "Invalid reply token"
  | Option.none => false

/-- The settlement of one event handler in the dispatched batch: the
logical time at which its promise settles, and its rejection value if it
rejects (none means it fulfills). -/
structure Settled where
  time : Nat
  err : Option WebhookError
deriving DecidableEq, Repr

/-- The rejections of a batch, as (settle time, rejection value) pairs. -/
def rejections (l : List Settled) : List (Nat × WebhookError) :=
  l.filterMap (fun s => s.err.map (fun e => (s.time, e)))

/-- Promise.all rejects with the earliest-settling rejection. -/
def firstRejection (l : List Settled) : Option (Nat × WebhookError) :=
  (rejections l).argmin Prod.fst

/-- When every handler fulfills, Promise.all fulfills once the last one
settles. -/
def maxSettleTime (l : List Settled) : Nat :=
  l.foldl (fun acc s => max acc s.time) 0

/-- handleWebhook over a settled batch: the logical completion time of the
gate and its outcome.  The try block awaits Promise.all over the per-event
handlers; the catch swallows a rejection whose response data message
includes the platform invalid-reply-token text, returning the fixed
sentinel, and rethrows every other rejection. -/
def handleWebhook (l : List Settled) : Nat × Except WebhookError String :=
  match firstRejection l with
  | Option.none => (maxSettleTime l, Except.ok WEBHOOK_RESPONSE.SUCCESS)
  | some (t, e) =>
    if errMatchesInvalidReplyToken e then
      (t, Except.ok WEBHOOK_RESPONSE.INVALID_REPLY_TOKEN)
    else
      (t, Except.error e)

/-! ## Authorization policy layer (index.ts, middlewares/verify.ts) -/

/-- The AUTH_STRATEGY enumeration. -/
inductive AuthStrategy
  | none
  | optional
  | required
deriving DecidableEq, Repr

/-- The procedure-name to strategy map API_AUTH_MAP. -/
def API_AUTH_MAP : List (String × AuthStrategy) :=
  [("getGroupEvents", AuthStrategy.none),
   ("getGroupFiles", AuthStrategy.none),
   ("updateGroupFileName", AuthStrategy.none),
   ("deleteGroupFile", AuthStrategy.none),
   ("getGroupIncompleteExpiredEvents", AuthStrategy.none),
   ("createEvent", AuthStrategy.optional),
   ("updateEvent", AuthStrategy.optional),
   ("deleteEvent", AuthStrategy.optional),
   ("uploadFile", AuthStrategy.required),
   ("uploadGroupFile", AuthStrategy.required)]

/-- The strategy selected for a method: the map entry, defaulting an
unlisted method to Required. -/
def authStrategyFor (method : String) : AuthStrategy :=
  (API_AUTH_MAP.lookup method).getD AuthStrategy.required

/-- The outcome of the platform identity endpoint for the presented access
token: a verified user id, an HTTP error with a status, or a network
failure without a response. -/
inductive TokenVerify
  | ok (userId : String)
  | httpError (status : Nat)
  | netError
deriving DecidableEq, Repr

/-- extractAccessToken succeeds only for a Bearer Authorization header. -/
def validBearerHeader : Option String → Bool
  | some s => s.startsWith "Bearer "
  | Option.none => false

/-- The outcome of the RPC auth middleware: a rejection response (the
procedure is never dispatched), or proceeding with a resolved identity. -/
inductive AuthResult
  | rejected (status : Nat) (body : String)
  | proceed (liffUserId : Option String)
deriving DecidableEq, Repr

/-- verifyOrpcAuth: required authentication.  The generic branch returns
status 401 with the caught error message (modelled by a fixed Axios-style
message for HTTP failures and a network-error message otherwise). -/
def verifyOrpcAuth (authHeader : Option String) (verify : TokenVerify) : AuthResult :=
  if !validBearerHeader authHeader then
    AuthResult.rejected 401 "Access token is required"
  else
    match verify with
    | TokenVerify.ok uid => AuthResult.proceed (some uid)
    | TokenVerify.httpError status =>
      if status == 401 then AuthResult.rejected 401 "Invalid access token"
      else if 500 ≤ status then
        AuthResult.rejected 503 "Authentication service unavailable"
      else
        AuthResult.rejected 401
          ("Request failed with status code " ++ toString status)
    | TokenVerify.netError => AuthResult.rejected 401 "Network Error"

/-- verifyOrpcAuthOptional: identity resolution is attempted, but every
failure leaves the identity unset and the call proceeds. -/
def verifyOrpcAuthOptional (authHeader : Option String) (verify : TokenVerify) :
    AuthResult :=
  if !validBearerHeader authHeader then AuthResult.proceed Option.none
  else
    match verify with
    | TokenVerify.ok uid => AuthResult.proceed (some uid)
    | _ => AuthResult.proceed Option.none

/-- The rpc route middleware: select the strategy for the method and apply
the corresponding verifier before dispatch. -/
def rpcAuthGate (method : String) (authHeader : Option String)
    (verify : TokenVerify) : AuthResult :=
  match authStrategyFor method with
  | AuthStrategy.none => AuthResult.proceed Option.none
  | AuthStrategy.optional => verifyOrpcAuthOptional authHeader verify
  | AuthStrategy.required => verifyOrpcAuth authHeader verify

/-- A call presents a valid identity when the Bearer header is present and
the platform verifies the token. -/
def presentsValidIdentity (authHeader : Option String) (verify : TokenVerify) :
    Bool :=
  validBearerHeader authHeader &&
    (match verify with
      | TokenVerify.ok _ => true
      | _ => false)

/-- Whether the identity endpoint itself failed with a server error. -/
def identityServiceDown : TokenVerify → Bool
  | TokenVerify.httpError status => 500 ≤ status
  | _ => false

/-! ## Calendar events (db/schema.ts, calendar-events/controller.ts) -/

/-- A calendar_events row.  Date columns hold Option Int epoch
milliseconds, none standing for a JavaScript Invalid Date written through
the coercion new Date of a falsy value. -/
structure CalendarEvent where
  id : Nat
  title : String
  description : Option String
  start : Option Int
  end_ : Option Int
  allDay : Bool
  color : Option String
  label : Option String
  location : Option String
  completed : Bool
  userId : String
  messageId : Option String
  groupId : Option String
deriving DecidableEq, Repr

/-- The autoincrement id for the next inserted event. -/
def nextEventId (events : List CalendarEvent) : Nat :=
  events.foldl (fun acc e => max acc e.id) 0 + 1

/-- An insert payload for calendar_events (NewCalendarEvent). -/
structure NewCalendarEvent where
  title : String
  description : Option String
  start : Option Int
  end_ : Option Int
  allDay : Bool
  color : Option String
  label : Option String
  userId : String
  completed : Bool
  messageId : Option String
  groupId : Option String
deriving DecidableEq, Repr

/-- CalendarEventController.getEvent: findFirst by id. -/
def CalendarEventController.getEvent (events : List CalendarEvent)
    (eventId : Nat) : Option CalendarEvent :=
  events.find? (fun e => e.id == eventId)

/-- CalendarEventController.createEvent: insert returning the new row.
The datastore enforces the unique constraint on message_id (null values do
not conflict) and the not-null constraints; a violation raises the D1
constraint error. -/
def CalendarEventController.createEvent (events : List CalendarEvent)
    (n : NewCalendarEvent) : Except String (CalendarEvent × List CalendarEvent) :=
  if n.messageId.isSome && events.any (fun e => e.messageId == n.messageId) then
    Except.error "D1_ERROR: UNIQUE constraint failed: calendar_events.message_id"
  else
    let ev : CalendarEvent :=
      { id := nextEventId events, title := n.title, description := n.description,
        start := n.start, end_ := n.end_, allDay := n.allDay, color := n.color,
        label := n.label, location := Option.none, completed := n.completed,
        userId := n.userId, messageId := n.messageId, groupId := n.groupId }
    Except.ok (ev, events ++ [ev])

/-- The parsed input of the updateEvent procedure (UpdateEventSchema: the
full event schema made partial, with id and userId required).  Date fields
hold the already-coerced timestamp of the supplied ISO string. -/
structure UpdateEventInput where
  id : Nat
  userId : String
  groupId : Option String
  title : Option String
  description : Option String
  start : Option Int
  end_ : Option Int
  allDay : Option Bool
  color : Option String
  label : Option String
  location : Option String
  completed : Option Bool
  messageId : Option String
deriving DecidableEq, Repr

/-- The drizzle set clause built from the spread update payload: fields
present in the input overwrite the row, absent fields leave it unchanged,
except start and end which are always written through the coercion
new Date of the payload value or the empty string (an absent date is
therefore written as an Invalid Date), userId which is always present in
the input, and createdAt which is explicitly left unchanged. -/
def applyEventUpdate (ev : CalendarEvent) (d : UpdateEventInput) : CalendarEvent :=
  { id := ev.id,
    title := d.title.getD ev.title,
    description := (match d.description with
      | some x => some x
      | Option.none => ev.description),
    start := d.start,
    end_ := d.end_,
    allDay := d.allDay.getD ev.allDay,
    color := (match d.color with
      | some x => some x
      | Option.none => ev.color),
    label := (match d.label with
      | some x => some x
      | Option.none => ev.label),
    location := (match d.location with
      | some x => some x
      | Option.none => ev.location),
    completed := d.completed.getD ev.completed,
    userId := d.userId,
    messageId := (match d.messageId with
      | some x => some x
      | Option.none => ev.messageId),
    groupId := (match d.groupId with
      | some x => some x
      | Option.none => ev.groupId) }

/-- CalendarEventController.updateEvent: load the row; refuse when it is
missing, owned by another user, or group-scoped (a truthy groupId). -/
def CalendarEventController.updateEvent (events : List CalendarEvent)
    (eventId : Nat) (userId : String) (d : UpdateEventInput) :
    Option (CalendarEvent × List CalendarEvent) :=
  match CalendarEventController.getEvent events eventId with
  | Option.none => Option.none
  | some ev =>
    if ev.userId != userId || optStrTruthy ev.groupId then Option.none
    else
      let updated := applyEventUpdate ev d
      some (updated, events.map (fun e => if e.id == eventId then updated else e))

/-- CalendarEventController.updateGroupEvent: load the row; refuse unless
its persisted groupId equals the given group id and is truthy. -/
def CalendarEventController.updateGroupEvent (events : List CalendarEvent)
    (eventId : Nat) (groupId : String) (d : UpdateEventInput) :
    Option (CalendarEvent × List CalendarEvent) :=
  match CalendarEventController.getEvent events eventId with
  | Option.none => Option.none
  | some ev =>
    if ev.groupId != some groupId || !optStrTruthy ev.groupId then Option.none
    else
      let updated := applyEventUpdate ev d
      some (updated, events.map (fun e => if e.id == eventId then updated else e))

/-- The outcome of the updateEvent RPC handler: success with the updated
row and store, the authorization rejection thrown before any update, or
the generic failure thrown from the try block (wrapping both the update of
a missing or unauthorized row and any datastore failure). -/
inductive UpdateEventOutcome
  | ok (result : CalendarEvent) (events : List CalendarEvent)
  | unauthorized
  | failedToUpdate
deriving DecidableEq, Repr

/-- The updateEvent procedure handler (routers/index.ts): load the current
persisted row; when it is not group-scoped require the verified caller to
equal the input userId; then update through the group path with the
persisted group id, or through the personal path with the input userId. -/
def appRouter.updateEvent (events : List CalendarEvent)
    (liffUserId : Option String) (input : UpdateEventInput) :
    UpdateEventOutcome :=
  let existingEvent := CalendarEventController.getEvent events input.id
  let isGroupEvent :=
    match existingEvent with
    | some e => optStrTruthy e.groupId
    | Option.none => false
  let callerMismatch :=
    match liffUserId with
    | Option.none => true
    | some uid => uid != input.userId
  if !isGroupEvent && callerMismatch then
    UpdateEventOutcome.unauthorized
  else
    let result :=
      if isGroupEvent && existingEvent.isSome then
        CalendarEventController.updateGroupEvent events input.id
          ((existingEvent.bind CalendarEvent.groupId).getD "") input
      else
        CalendarEventController.updateEvent events input.id input.userId input
    match result with
    | some (r, evs) => UpdateEventOutcome.ok r evs
    | Option.none => UpdateEventOutcome.failedToUpdate

/-! ## Message and file stores (db/schema.ts, messages/controller.ts,
files/controller.ts) -/

/-- A messages row.  The userId column is NOT NULL in the schema; it is
held here as the raw inserted value, and the insert enforces the
constraint. -/
structure StoredMessage where
  id : Nat
  messageId : String
  userId : Option String
  content : String
  messageType : String
  quotedMessageId : Option String
  groupId : Option String
  eventId : Option Nat
deriving DecidableEq, Repr

/-- An insert payload for the messages table (NewMessage). -/
structure NewMessage where
  messageId : String
  userId : Option String
  content : String
  messageType : String
  quotedMessageId : Option String
  groupId : Option String
deriving DecidableEq, Repr

/-- The autoincrement id for the next inserted message. -/
def nextStoredMessageId (msgs : List StoredMessage) : Nat :=
  msgs.foldl (fun acc m => max acc m.id) 0 + 1

/-- MessageController.getMessageByMessageId: select by external id,
returning the first row or null. -/
def MessageController.getMessageByMessageId (msgs : List StoredMessage)
    (messageId : String) : Option StoredMessage :=
  msgs.find? (fun m => m.messageId == messageId)

/-- MessageController.getQuotedMessage: select by external id. -/
def MessageController.getQuotedMessage (msgs : List StoredMessage)
    (quotedMessageId : String) : Option StoredMessage :=
  msgs.find? (fun m => m.messageId == quotedMessageId)

/-- MessageController.createMessage: insert returning the new internal id.
The datastore enforces the unique constraint on message_id and the
not-null constraint on user_id. -/
def MessageController.createMessage (msgs : List StoredMessage)
    (n : NewMessage) : Except String (Nat × List StoredMessage) :=
  if msgs.any (fun m => m.messageId == n.messageId) then
    Except.error "D1_ERROR: UNIQUE constraint failed: messages.message_id"
  else if n.userId.isNone then
    Except.error "D1_ERROR: NOT NULL constraint failed: messages.user_id"
  else
    let id := nextStoredMessageId msgs
    Except.ok (id,
      msgs ++ [{ id, messageId := n.messageId, userId := n.userId,
                 content := n.content, messageType := n.messageType,
                 quotedMessageId := n.quotedMessageId, groupId := n.groupId,
                 eventId := Option.none }])

/-- MessageController.updateMessageEventId: attach the created event to the
originating stored message. -/
def MessageController.updateMessageEventId (msgs : List StoredMessage)
    (messageId eventId : Nat) : List StoredMessage :=
  msgs.map (fun m => if m.id == messageId then { m with eventId := some eventId } else m)

/-- A files row. -/
structure StoredFile where
  id : Nat
  fileId : String
  userId : Option String
  fileName : String
  fileSize : Nat
  mimeType : String
  groupId : Option String
deriving DecidableEq, Repr

/-- An insert payload for the files table (Newfile). -/
structure NewFile where
  fileId : String
  userId : Option String
  fileName : String
  fileSize : Nat
  mimeType : String
  groupId : Option String
deriving DecidableEq, Repr

/-- The autoincrement id for the next inserted file. -/
def nextStoredFileId (fs : List StoredFile) : Nat :=
  fs.foldl (fun acc f => max acc f.id) 0 + 1

/-- FileController.createFile: insert the row (unique file_id, not-null
user_id enforced by the datastore) and put the object into storage; the
object-storage put itself is outside the verified core. -/
def FileController.createFile (fs : List StoredFile) (n : NewFile) :
    Except String (StoredFile × List StoredFile) :=
  if fs.any (fun f => f.fileId == n.fileId) then
    Except.error "D1_ERROR: UNIQUE constraint failed: files.file_id"
  else if n.userId.isNone then
    Except.error "D1_ERROR: NOT NULL constraint failed: files.user_id"
  else
    let f : StoredFile :=
      { id := nextStoredFileId fs, fileId := n.fileId, userId := n.userId,
        fileName := n.fileName, fileSize := n.fileSize, mimeType := n.mimeType,
        groupId := n.groupId }
    Except.ok (f, fs ++ [f])

/-! ## AI-assisted extraction client (lib/ai.ts) -/

def DEFAULT_TIMEZONE : String := "Asia/Taipei"

def DEFAULT_EVENT_DURATION_HOURS : Int := 1

/-- One tool call reported by the AI endpoint. -/
structure ToolCall where
  toolCallId : String
  toolName : String
deriving DecidableEq, Repr

/-- The candidate event inside a successful createEvent tool result. -/
structure ToolResultEvent where
  title : String
  description : Option String
  start : Int
  end_ : Int
  allDay : Option Bool
  color : Option String
  label : Option String
deriving DecidableEq, Repr

/-- The result object of one tool result entry. -/
structure ToolResultData where
  success : Bool
  event : Option ToolResultEvent
deriving DecidableEq, Repr

/-- One tool result reported by the AI endpoint. -/
structure ToolResult where
  toolCallId : String
  result : Option ToolResultData
deriving DecidableEq, Repr

/-- The data field of a successful AI API response. -/
structure AIApiData where
  text : String
  toolCalls : List ToolCall
  toolResults : Option (List ToolResult)
deriving DecidableEq, Repr

/-- The outcome of the POST to the external calendar-ai endpoint: the
request itself rejecting, or a response body with success, error and data
fields. -/
inductive AIApiOutcome
  | thrown (e : ErrValue)
  | response (success : Bool) (error : Option String) (data : Option AIApiData)
deriving DecidableEq, Repr

/-- The AIContext handed to createEventWithAI.  The api key and base url
only address the external call, which is passed in as an outcome, so they
are not part of the state. -/
structure AIContext where
  userId : String
  messageId : String
  timezone : Option String
  groupId : Option String
deriving DecidableEq, Repr

/-- A stand-in for the Intl-based timestamp rendering used in the
confirmation text: it displays the raw epoch value and the zone name (the
locale-calendar formatting itself is outside the embedded core). -/
def formatDateTime (t : Option Int) (timezone : String) : String :=
  match t with
  | some n => toString n ++ " (" ++ timezone ++ ")"
  | Option.none => "Invalid Date"

/-- formatSuccessMessage: the localized confirmation text. -/
def formatSuccessMessage (n : NewCalendarEvent) (timezone : String) : String :=
  "成功建立待辦事項\n標題: " ++ n.title ++
  "\n開始時間: " ++ formatDateTime n.start timezone ++
  "\n結束時間: " ++ formatDateTime n.end_ timezone

/-- The EventResult union of the event creation logic. -/
inductive EventResult
  | success (message : String) (createdEvent : CalendarEvent)
  | failure (error : String)
deriving DecidableEq, Repr

/-- executeCreateEvent: persist the event, catching any datastore failure
and normalizing it into the user-facing error text. -/
def executeCreateEvent (events : List CalendarEvent) (n : NewCalendarEvent)
    (timezone : String) : List CalendarEvent × EventResult :=
  match CalendarEventController.createEvent events n with
  | Except.ok (ev, events') =>
    (events', EventResult.success (formatSuccessMessage n timezone) ev)
  | Except.error msg =>
    (events, EventResult.failure (ErrorHandler.handle (plainError "Error" msg)).userMessage)

/-- createDirectEvent: the fallback event built from the raw input text,
starting now and ending one hour later, not all-day. -/
def createDirectEvent (events : List CalendarEvent) (userMessage userId messageId : String)
    (timezone : String) (groupId : Option String) (now : Int) :
    List CalendarEvent × EventResult :=
  let endTime := now + DEFAULT_EVENT_DURATION_HOURS * 60 * 60 * 1000
  let eventData : NewCalendarEvent :=
    { title := userMessage, description := Option.none, start := some now,
      end_ := some endTime, allDay := false, color := Option.none,
      label := Option.none, userId := userId, completed := false,
      messageId := some messageId,
      groupId := if optStrTruthy groupId then groupId else Option.none }
  executeCreateEvent events eventData timezone

/-- The loop of createEventWithAI over the reported tool calls: the first
tool call named createEvent is processed (its matching successful tool
result is materialized), and the loop breaks. -/
def runCreateToolCall (events : List CalendarEvent) (d : AIApiData)
    (ctx : AIContext) (timezone : String) :
    List CalendarEvent × String × Option CalendarEvent × Bool :=
  if d.toolCalls.isEmpty || d.toolResults.isNone then
    (events, d.text, Option.none, false)
  else
    match d.toolCalls.find? (fun tc => tc.toolName == "createEvent") with
    | Option.none => (events, d.text, Option.none, false)
    | some tc =>
      match (d.toolResults.getD []).find? (fun tr => tr.toolCallId == tc.toolCallId) with
      | Option.none => (events, d.text, Option.none, false)
      | some tr =>
        match tr.result with
        | Option.none => (events, d.text, Option.none, false)
        | some rd =>
          if !rd.success then (events, d.text, Option.none, false)
          else
            match rd.event with
            | Option.none => (events, d.text, Option.none, false)
            | some ev0 =>
              let eventData : NewCalendarEvent :=
                { title := ev0.title, description := ev0.description,
                  start := some ev0.start, end_ := some ev0.end_,
                  allDay := ev0.allDay.getD false, color := ev0.color,
                  label := ev0.label, userId := ctx.userId, completed := false,
                  messageId := some ctx.messageId,
                  groupId := if optStrTruthy ctx.groupId then ctx.groupId else Option.none }
              match executeCreateEvent events eventData timezone with
              | (events', EventResult.success msg ev) => (events', msg, some ev, true)
              | (events', EventResult.failure err) => (events', err, Option.none, false)

/-- The AIResult record returned by createEventWithAI. -/
structure AIResult where
  success : Bool
  text : String
  toolCalls : List ToolCall
  toolResults : List ToolResult
  createdEvent : Option CalendarEvent
  error : Option String
deriving DecidableEq, Repr

/-- A failed AIResult with empty echoes, as built by the outer catch. -/
def aiFailure (userMessage : String) : AIResult :=
  { success := false, text := "", toolCalls := [], toolResults := [],
    createdEvent := Option.none, error := some userMessage }

/-- createEventWithAI: call the external extraction endpoint; materialize
a successful createEvent tool result, otherwise fall back to the direct
event built from the raw input; every failure is caught and normalized
into the error field. -/
def createEventWithAI (events : List CalendarEvent) (userMessage : String)
    (ctx : AIContext) (aiCall : AIApiOutcome) (now : Int) :
    List CalendarEvent × AIResult :=
  let timezone := if optStrTruthy ctx.timezone then ctx.timezone.getD "" else DEFAULT_TIMEZONE
  match aiCall with
  | AIApiOutcome.thrown e =>
    (events, aiFailure (ErrorHandler.handle e).userMessage)
  | AIApiOutcome.response success error data =>
    if !success then
      let msg := if optStrTruthy error then error.getD "" else "AI API returned error"
      (events, aiFailure (ErrorHandler.handle (plainError "Error" msg)).userMessage)
    else
      match data with
      | Option.none =>
        (events,
          aiFailure (ErrorHandler.handle
            (plainError "TypeError" "Cannot destructure property of undefined")).userMessage)
      | some d =>
        let r := runCreateToolCall events d ctx timezone
        let events1 := r.1
        let resultText := r.2.1
        let createdEvent := r.2.2.1
        let succ := r.2.2.2
        if succ && createdEvent.isSome then
          (events1,
            { success := true, text := resultText, toolCalls := d.toolCalls,
              toolResults := d.toolResults.getD [], createdEvent := createdEvent,
              error := Option.none })
        else
          match createDirectEvent events1 userMessage ctx.userId ctx.messageId
              timezone ctx.groupId now with
          | (events2, EventResult.success msg ev) =>
            (events2,
              { success := true, text := msg, toolCalls := d.toolCalls,
                toolResults := d.toolResults.getD [], createdEvent := some ev,
                error := Option.none })
          | (events2, EventResult.failure err) =>
            (events2,
              { success := false, text := "", toolCalls := d.toolCalls,
                toolResults := d.toolResults.getD [], createdEvent := Option.none,
                error := some err })

/-! ## Message processing pipeline (webhook/message-handlers.ts) -/

/-- One mentionee of a message mention object. -/
structure LineMentionee where
  isSelf : Bool
deriving DecidableEq, Repr

/-- The mention object of a message. -/
structure LineMention where
  mentionees : Option (List LineMentionee)
deriving DecidableEq, Repr

/-- An inbound platform message. -/
structure LineMessage where
  id : String
  type_ : String
  text : Option String
  fileName : Option String
  quotedMessageId : Option String
  mention : Option LineMention
  quoteToken : Option String
deriving DecidableEq, Repr

/-- The source of an inbound event: a user, group or room. -/
structure LineSource where
  type_ : String
  userId : Option String
  groupId : Option String
  roomId : Option String
deriving DecidableEq, Repr

/-- An inbound Message event. -/
structure LineEvent where
  message : LineMessage
  source : LineSource
  replyToken : Option String
deriving DecidableEq, Repr

/-- The optional chain message.mention?.mentionees?.some(m => m.isSelf),
with an absent link evaluating falsy. -/
def mentionsBot (message : LineMessage) : Bool :=
  match message.mention with
  | some mn =>
    match mn.mentionees with
    | some l => l.any (fun m => m.isSelf)
    | Option.none => false
  | Option.none => false

/-- The whole datastore. -/
structure Db where
  messages : List StoredMessage
  events : List CalendarEvent
  files : List StoredFile
deriving DecidableEq, Repr

/-- The downloaded binary content together with the detected file type
(fileTypeFromBuffer may detect nothing). -/
structure FileBuffer where
  byteLength : Nat
  ext : Option String
  mime : Option String
deriving DecidableEq, Repr

/-- The external responses consumed while processing one message: the AI
endpoint outcome, the clock, and the platform content download outcome. -/
structure WorldInputs where
  aiCall : AIApiOutcome
  now : Int
  download : Except ErrValue FileBuffer
deriving Repr

/-- The observable I/O actions of one processMessage run, in order. -/
inductive Effect
  | readMessage (messageId : String)
  | insertMessage (messageId : String)
  | setMessageEventId (id eventId : Nat)
  | aiRequest (input : String)
  | downloadFile (messageId : String)
  | reply (text : String)
deriving DecidableEq, Repr

/-- Whether an effect writes the datastore. -/
def Effect.isWrite : Effect → Bool
  | Effect.insertMessage _ => true
  | Effect.setMessageEventId _ _ => true
  | _ => false

/-- Whether an effect is a chat reply attempt. -/
def Effect.isReply : Effect → Bool
  | Effect.reply _ => true
  | _ => false

/-- Whether an effect is a call to the AI extraction endpoint. -/
def Effect.isAiRequest : Effect → Bool
  | Effect.aiRequest _ => true
  | _ => false

/-- Whether an effect is a platform content download. -/
def Effect.isDownload : Effect → Bool
  | Effect.downloadFile _ => true
  | _ => false

/-- How one processMessage run ends: normally, or by an exception escaping
it (only the dedup insert sits outside its try block). -/
inductive ProcOutcome
  | done
  | threw (msg : String)
deriving DecidableEq, Repr

/-- generateManageUrl: the localized management deep link, scoped to the
group or to the personal path. -/
def generateManageUrl (source : LineSource) (frontendUrl type_ : String) : String :=
  let isGroupMessage := optStrTruthy (jsOr source.groupId source.roomId)
  let menageUrl :=
    if isGroupMessage then
      frontendUrl ++ "/group/" ++ optToString (jsOr source.groupId source.roomId) ++ "/" ++ type_
    else
      frontendUrl ++ "/" ++ optToString source.userId ++ "/" ++ type_
  if type_ == "files" then "\n\n📂 查看和管理檔案：" ++ menageUrl
  else "\n\n📅 查看和訂閱行事曆：" ++ menageUrl

/-- processText: build the AI input (stitching quoted context when the
message quotes a prior one), run the extraction, best-effort attach the
created event to the stored message, and produce the reply text. -/
def processText (db : Db) (message : LineMessage) (source : LineSource)
    (world : WorldInputs) (savedMessageId : Nat) (frontendUrl : String) :
    Db × List Effect × Option String :=
  let msgText := optToString message.text
  let quoteStep :=
    if optStrTruthy message.quotedMessageId then
      let qid := message.quotedMessageId.getD ""
      let quoted := MessageController.getQuotedMessage db.messages qid
      ([Effect.readMessage qid],
        match quoted with
        | some q => "回應訊息：「" ++ q.content ++ "」\n\n當前訊息：" ++ msgText
        | Option.none => "回應先前的訊息：" ++ msgText)
    else ([], msgText)
  let aiInputText := quoteStep.2
  let ctx : AIContext :=
    { userId := optToString source.userId, messageId := message.id,
      timezone := Option.none, groupId := jsOr source.groupId source.roomId }
  let aiStep := createEventWithAI db.events aiInputText ctx world.aiCall world.now
  let db1 : Db := { db with events := aiStep.1 }
  let aiResult := aiStep.2
  let trace := quoteStep.1 ++ [Effect.aiRequest aiInputText]
  if aiResult.success then
    match aiResult.createdEvent with
    | some ev =>
      ({ db1 with messages := MessageController.updateMessageEventId db1.messages savedMessageId ev.id },
        trace ++ [Effect.setMessageEventId savedMessageId ev.id],
        some (jsOrString (aiResult.text ++ generateManageUrl source frontendUrl "todo") "操作完成"))
    | Option.none =>
      (db1, trace,
        some (jsOrString (aiResult.text ++ generateManageUrl source frontendUrl "todo") "操作完成"))
  else
    (db1, trace,
      some (if optStrTruthy aiResult.error then aiResult.error.getD "" else "處理失敗"))

/-- processFile: download the content, detect the type, and back the file
up; a failure escapes to the caller catch. -/
def processFile (db : Db) (message : LineMessage) (source : LineSource)
    (world : WorldInputs) (frontendUrl : String) :
    Db × List Effect × Except ErrValue (Option String) :=
  match world.download with
  | Except.error e => (db, [Effect.downloadFile message.id], Except.error e)
  | Except.ok buf =>
    let fileName :=
      if optStrTruthy message.fileName then message.fileName.getD ""
      else message.id ++ "." ++ (if optStrTruthy buf.ext then buf.ext.getD "" else "bin")
    let mimeType :=
      if optStrTruthy buf.mime then buf.mime.getD "" else "application/octet-stream"
    let fileInfo : NewFile :=
      { fileId := message.id, userId := source.userId, fileName := fileName,
        fileSize := buf.byteLength, mimeType := mimeType,
        groupId := jsOr source.groupId source.roomId }
    match FileController.createFile db.files fileInfo with
    | Except.error msg =>
      (db, [Effect.downloadFile message.id], Except.error (plainError "Error" msg))
    | Except.ok (_, files') =>
      ({ db with files := files' }, [Effect.downloadFile message.id],
        Except.ok (some ("📁 檔案「" ++ fileName ++ "」已成功備份到！" ++
          generateManageUrl source frontendUrl "files")))

/-- The tail of processMessage: send the reply when the response text is
truthy; a reply failure is logged and swallowed, so the attempt is
recorded but never changes the outcome. -/
def finishReply (db : Db) (trace : List Effect) (responseText : Option String) :
    Db × List Effect × ProcOutcome :=
  match responseText with
  | some t =>
    if t == "" then (db, trace, ProcOutcome.done)
    else (db, trace ++ [Effect.reply t], ProcOutcome.done)
  | Option.none => (db, trace, ProcOutcome.done)

/-- processMessage: skip the bot messages, deduplicate by external id,
persist the stored message, filter unmentioned group text messages, run
the text or file processor with its catch normalizing any failure into a
reply, and send the reply. -/
def processMessage (db : Db) (event : LineEvent) (world : WorldInputs)
    (hasFileController : Bool) (frontendUrl : String) :
    Db × List Effect × ProcOutcome :=
  let message := event.message
  let source := event.source
  if source.type_ == "user" && !optStrTruthy source.userId then
    (db, [], ProcOutcome.done)
  else
    match MessageController.getMessageByMessageId db.messages message.id with
    | some _ => (db, [Effect.readMessage message.id], ProcOutcome.done)
    | Option.none =>
      let newMsg : NewMessage :=
        { messageId := message.id, userId := source.userId,
          content :=
            if optStrTruthy message.text then message.text.getD ""
            else if optStrTruthy message.fileName then message.fileName.getD ""
            else "檔案訊息: " ++ message.type_,
          messageType := message.type_,
          quotedMessageId :=
            if optStrTruthy message.quotedMessageId then message.quotedMessageId
            else Option.none,
          groupId := jsOr source.groupId source.roomId }
      match MessageController.createMessage db.messages newMsg with
      | Except.error msg => (db, [Effect.readMessage message.id], ProcOutcome.threw msg)
      | Except.ok (savedMessageId, messages') =>
        let db1 : Db := { db with messages := messages' }
        let trace1 := [Effect.readMessage message.id, Effect.insertMessage message.id]
        if message.type_ == "text" then
          if optStrTruthy (jsOr source.groupId source.roomId) && !mentionsBot message then
            (db1, trace1, ProcOutcome.done)
          else
            let r := processText db1 message source world savedMessageId frontendUrl
            finishReply r.1 (trace1 ++ r.2.1) r.2.2
        else if hasFileController then
          match processFile db1 message source world frontendUrl with
          | (db2, t2, Except.ok responseText) =>
            finishReply db2 (trace1 ++ t2) responseText
          | (db2, t2, Except.error e) =>
            finishReply db2 (trace1 ++ t2) (some (ErrorHandler.handle e).userMessage)
        else finishReply db1 trace1 Option.none

/-! ## Shared lemmas -/

theorem any_eq_false_of_find?_eq_none {α} (p : α → Bool) (l : List α)
    (h : l.find? p = Option.none) : l.any p = false := by
  rw [List.find?_eq_none] at h
  rw [List.any_eq_false]
  intro x hx
  simpa using h x hx

theorem optStrTruthy_isSome {o : Option String} (h : optStrTruthy o = true) :
    o.isNone = false := by
  cases o with
  | none => simp [optStrTruthy] at h
  | some s => rfl

/-! ## Claim C7: the normalizer always returns one error whose status
matches its type -/

/-- The status the specification assigns to each error type (the fixed
mapping of the claim); the two types the normalizer never emits are
unmapped. -/
def specStatusOfType : ErrorType → Option Nat
  | ErrorType.validation => some 400
  | ErrorType.authentication => some 401
  | ErrorType.authorization => some 403
  | ErrorType.not_found => some 404
  | ErrorType.conflict => some 409
  | ErrorType.internal => some 500
  | ErrorType.database => some 500
  | ErrorType.external_api => some 502
  | ErrorType.ai_service => some 503
  | ErrorType.rate_limit => Option.none
  | ErrorType.file_system => Option.none

theorem handleZodError_status (z : ZodError) :
    specStatusOfType (handleZodError z).type_ = some (handleZodError z).statusCode := rfl

theorem handleAxiosError_status (e : StdError) :
    specStatusOfType (handleAxiosError e).type_ = some (handleAxiosError e).statusCode := by
  unfold handleAxiosError
  dsimp only
  repeat' split
  all_goals rfl

theorem handleD1DatabaseError_status (e : StdError) :
    specStatusOfType (handleD1DatabaseError e).type_
      = some (handleD1DatabaseError e).statusCode := by
  unfold handleD1DatabaseError
  dsimp only
  repeat' split
  all_goals rfl

theorem handleStandardError_status (e : StdError) :
    specStatusOfType (handleStandardError e).type_
      = some (handleStandardError e).statusCode := by
  unfold handleStandardError
  dsimp only
  repeat' split
  all_goals
    first
      | rfl
      | exact handleZodError_status _
      | exact handleAxiosError_status _
      | exact handleD1DatabaseError_status _

/-- C7.  For every input, Error or not, ErrorHandler.handle returns exactly
one normalized error, and its HTTP status matches its type under the fixed
mapping (validation 400, authentication 401, authorization 403, not_found
404, conflict 409, internal and database 500, external_api 502, ai_service
503).  The only hypothesis concerns the pass-through case: an input that is
already an AppError is assumed to have been built by the ErrorFactory
constructors, which fix exactly these statuses. -/
theorem errorHandler_status_matches_type (v : ErrValue)
    (h : match v with
      | ErrValue.appError a => specStatusOfType a.type_ = some a.statusCode
      | _ => True) :
    specStatusOfType (ErrorHandler.handle v).type_
      = some (ErrorHandler.handle v).statusCode := by
  cases v with
  | appError a => exact h
  | zodError z => exact handleZodError_status z
  | stdError e => exact handleStandardError_status e
  | nonError s => rfl

theorem errorHandler_status_matches_type_witness :
    specStatusOfType (ErrorHandler.handle (ErrValue.nonError "boom")).type_
      = some (ErrorHandler.handle (ErrValue.nonError "boom")).statusCode :=
  errorHandler_status_matches_type (ErrValue.nonError "boom") True.intro

/-! ## Claim C8: unique-constraint violations on the message-id column -/

/-- C8.  Every datastore error (a standard Error that carries neither a
pre-normalized status and code pair nor an Axios response sub-object)
whose message or stack indicates a unique-constraint violation on the
message-id column is normalized to a conflict with HTTP status 409 and
the specific already-processed user message; ErrorHandler.handle is a
total function, so no such input escapes unhandled. -/
theorem uniqueMessageId_normalizes_to_conflict (e : StdError)
    (h1 : (optNatTruthy e.statusCode && optStrTruthy e.code) = false)
    (h2 : e.response = Option.none)
    (h3 : strIncludes (e.message ++ e.stack.getD "") "UNIQUE constraint failed" = true)
    (h4 : strIncludes (e.message ++ e.stack.getD "") "message_id" = true) :
    (ErrorHandler.handle (ErrValue.stdError e)).type_ = ErrorType.conflict
    ∧ (ErrorHandler.handle (ErrValue.stdError e)).statusCode = 409
    ∧ (ErrorHandler.handle (ErrValue.stdError e)).userMessage
        = "此訊息已經處理過，請勿重複提交" := by
  have hax : isAxiosError e = false := by
    simp [isAxiosError, h2]
  have hd1 : isD1DatabaseError e = true := by
    simp [isD1DatabaseError, h3]
  have hh : ErrorHandler.handle (ErrValue.stdError e) = handleD1DatabaseError e := by
    simp [ErrorHandler.handle, handleStandardError, h1, hax, hd1]
  rw [hh]
  unfold handleD1DatabaseError
  simp [h3, h4, ErrorFactory.conflict]

theorem uniqueMessageId_normalizes_to_conflict_witness :
    (ErrorHandler.handle (plainError "Error"
        "D1_ERROR: UNIQUE constraint failed: messages.message_id")).type_
      = ErrorType.conflict
    ∧ (ErrorHandler.handle (plainError "Error"
        "D1_ERROR: UNIQUE constraint failed: messages.message_id")).statusCode = 409
    ∧ (ErrorHandler.handle (plainError "Error"
        "D1_ERROR: UNIQUE constraint failed: messages.message_id")).userMessage
        = "此訊息已經處理過，請勿重複提交" :=
  uniqueMessageId_normalizes_to_conflict
    { name := "Error",
      message := "D1_ERROR: UNIQUE constraint failed: messages.message_id",
      stack := Option.none, statusCode := Option.none, code := Option.none,
      zodError := Option.none, response := Option.none }
    (by decide) rfl (by decide) (by decide)

/-! ## Claims C3 and C4: the webhook gate -/

theorem le_foldl_max_init (l : List Settled) (a : Nat) :
    a ≤ l.foldl (fun acc s => max acc s.time) a := by
  induction l generalizing a with
  | nil => exact Nat.le_refl a
  | cons x xs ih => exact Nat.le_trans (Nat.le_max_left a x.time) (ih (max a x.time))

theorem time_le_foldl_max (l : List Settled) (a : Nat) (s : Settled)
    (h : s ∈ l) : s.time ≤ l.foldl (fun acc t => max acc t.time) a := by
  induction l generalizing a with
  | nil => cases h
  | cons x xs ih =>
    rcases List.mem_cons.mp h with hx | hx
    · subst hx
      exact Nat.le_trans (Nat.le_max_right a s.time) (le_foldl_max_init xs (max a s.time))
    · exact ih (max a x.time) hx


theorem mem_rejections_time (l : List Settled) (t : Nat) (e : WebhookError)
    (h : (t, e) ∈ rejections l) : ∃ s ∈ l, s.time = t ∧ s.err = some e := by
  unfold rejections at h
  rw [List.mem_filterMap] at h
  obtain ⟨s, hs, hmap⟩ := h
  cases herr : s.err with
  | none => rw [herr] at hmap; simp at hmap
  | some e2 =>
    rw [herr] at hmap
    simp only [Option.map_some', Option.some.injEq, Prod.mk.injEq] at hmap
    exact ⟨s, hs, hmap.1, by rw [herr, hmap.2]⟩

theorem firstRejection_time_le (l : List Settled) (t : Nat) (e : WebhookError)
    (h : firstRejection l = some (t, e)) : t ≤ maxSettleTime l := by
  have hmem : (t, e) ∈ rejections l := List.argmin_mem h
  obtain ⟨s, hs, hts, _⟩ := mem_rejections_time l t e hmem
  rw [← hts]
  exact time_le_foldl_max l 0 s hs

/-- C3.  For the failure the gate observes (the earliest-settling
rejection of the batch), a message matching the platform invalid-reply
token condition is swallowed and the gate returns the fixed sentinel
string instead of raising, while any non-matching exception propagates
out of the gate. -/
theorem webhook_reply_token_sentinel (l : List Settled) (t : Nat) (e : WebhookError)
    (h : firstRejection l = some (t, e)) :
    (errMatchesInvalidReplyToken e = true →
      (handleWebhook l).2 = Except.ok WEBHOOK_RESPONSE.INVALID_REPLY_TOKEN)
    ∧ (errMatchesInvalidReplyToken e = false →
      (handleWebhook l).2 = Except.error e) := by
  constructor
  · intro hm
    simp [handleWebhook, h, hm]
  · intro hm
    simp [handleWebhook, h, hm]

theorem webhook_reply_token_sentinel_witness :
    (handleWebhook
        [{ time := 3, err := some { responseDataMessage := some "Invalid reply token" } }]).2
      = Except.ok WEBHOOK_RESPONSE.INVALID_REPLY_TOKEN :=
  (webhook_reply_token_sentinel
    [{ time := 3, err := some { responseDataMessage := some "Invalid reply token" } }]
    3 { responseDataMessage := some "Invalid reply token" } rfl).1 (by decide)

/-- C4, counterexample.  The gate joins the batch with Promise.all, which
rejects as soon as the earliest rejection settles: in a batch whose first
event rejects at time 1 (with a non-sentinel error) while its sibling
settles at time 5, the gate raises at time 1, strictly before the sibling
has settled, refuting the claim that a non-sentinel exception propagates
only once all sibling events have settled. -/
theorem webhook_gate_raises_before_siblings_settle :
    (handleWebhook
        [{ time := 1, err := some { responseDataMessage := Option.none } },
         { time := 5, err := Option.none }]).1 = 1
    ∧ maxSettleTime
        [{ time := 1, err := some { responseDataMessage := Option.none } },
         { time := 5, err := Option.none }] = 5
    ∧ (handleWebhook
        [{ time := 1, err := some { responseDataMessage := Option.none } },
         { time := 5, err := Option.none }]).2
      = Except.error { responseDataMessage := Option.none } :=
  ⟨rfl, rfl, rfl⟩

/-- C4, amended.  All events of the batch are dispatched concurrently and
run to settlement regardless of sibling failures (the batch settlement
list is fixed before the join); when every handler fulfills the gate
returns only after the last one settles, but when some handler rejects
the gate completes at the settle time of the earliest rejection, which may
be before the remaining siblings settle, returning the sentinel for a
matching reply-token failure and raising that rejection otherwise. -/
theorem webhook_gate_join_semantics (l : List Settled) :
    (firstRejection l = Option.none →
      handleWebhook l = (maxSettleTime l, Except.ok WEBHOOK_RESPONSE.SUCCESS))
    ∧ (∀ t e, firstRejection l = some (t, e) →
      (handleWebhook l).1 = t ∧ t ≤ maxSettleTime l
      ∧ ((handleWebhook l).2 = Except.ok WEBHOOK_RESPONSE.INVALID_REPLY_TOKEN
          ∨ (handleWebhook l).2 = Except.error e)) := by
  constructor
  · intro h
    simp [handleWebhook, h]
  · intro t e h
    refine ⟨?_, firstRejection_time_le l t e h, ?_⟩
    · simp only [handleWebhook, h]
      split <;> rfl
    · simp only [handleWebhook, h]
      split
      · exact Or.inl rfl
      · exact Or.inr rfl

theorem webhook_gate_join_semantics_witness :
    (handleWebhook
        [{ time := 1, err := some { responseDataMessage := Option.none } },
         { time := 5, err := Option.none }]).1 = 1
    ∧ 1 ≤ maxSettleTime
        [{ time := 1, err := some { responseDataMessage := Option.none } },
         { time := 5, err := Option.none }] :=
  ⟨((webhook_gate_join_semantics
      [{ time := 1, err := some { responseDataMessage := Option.none } },
       { time := 5, err := Option.none }]).2 1
      { responseDataMessage := Option.none } rfl).1,
    ((webhook_gate_join_semantics
      [{ time := 1, err := some { responseDataMessage := Option.none } },
       { time := 5, err := Option.none }]).2 1
      { responseDataMessage := Option.none } rfl).2.1⟩

/-! ## Claim C1: updateEvent authorization bifurcation -/

/-- C1.  For the updateEvent procedure over a store whose row at the input
id is ev: when the persisted groupId is "G1" and the caller supplies
groupId "G1", the update succeeds for every caller identity, whoever
created the event; when the persisted groupId is null and the owning
userId is "U1" (the id named by the update payload), the call is rejected
with the unauthorized user-id-mismatch error for verified caller "U2" and
succeeds for verified caller "U1". -/
theorem updateEvent_scope_bifurcation (events : List CalendarEvent)
    (input : UpdateEventInput) (ev : CalendarEvent)
    (hev : CalendarEventController.getEvent events input.id = some ev) :
    (ev.groupId = some "G1" → input.groupId = some "G1" →
      ∀ liffUserId, ∃ r evs,
        appRouter.updateEvent events liffUserId input = UpdateEventOutcome.ok r evs)
    ∧ (ev.groupId = Option.none → ev.userId = "U1" → input.userId = "U1" →
      appRouter.updateEvent events (some "U2") input = UpdateEventOutcome.unauthorized
      ∧ ∃ r evs,
        appRouter.updateEvent events (some "U1") input = UpdateEventOutcome.ok r evs) := by
  constructor
  · intro hg _hig liffUserId
    have hres : CalendarEventController.updateGroupEvent events input.id "G1" input
        = some (applyEventUpdate ev input,
            events.map (fun e => if e.id == input.id then applyEventUpdate ev input else e)) := by
      unfold CalendarEventController.updateGroupEvent
      rw [hev]
      dsimp only
      rw [hg]
      have hcond : (some "G1" != some "G1" || !optStrTruthy (some "G1")) = false := by decide
      rw [hcond]
      simp
    have hmain : appRouter.updateEvent events liffUserId input
        = UpdateEventOutcome.ok (applyEventUpdate ev input)
            (events.map (fun e => if e.id == input.id then applyEventUpdate ev input else e)) := by
      unfold appRouter.updateEvent
      rw [hev]
      dsimp only [Option.bind, Option.isSome]
      rw [hg]
      dsimp only [Option.getD]
      have hc : optStrTruthy (some "G1") = true := by decide
      rw [hc]
      simp only [Bool.not_true, Bool.false_and, Bool.true_and, Bool.and_true, if_false,
        Bool.false_eq_true, ite_false, ite_true, hres]
    exact ⟨_, _, hmain⟩
  · intro hg hu hiu
    constructor
    · unfold appRouter.updateEvent
      rw [hev]
      dsimp only [Option.bind, Option.isSome]
      rw [hg, hiu]
      have hc : optStrTruthy (Option.none : Option String) = false := by decide
      rw [hc]
      have hm : (("U2" : String) != "U1") = true := by decide
      rw [hm]
      simp
    · have hres : CalendarEventController.updateEvent events input.id "U1" input
          = some (applyEventUpdate ev input,
              events.map (fun e => if e.id == input.id then applyEventUpdate ev input else e)) := by
        unfold CalendarEventController.updateEvent
        rw [hev]
        dsimp only
        rw [hg, hu]
        have hcond : (("U1" != "U1") || optStrTruthy (Option.none : Option String)) = false := by
          decide
        rw [hcond]
        simp
      have hmain : appRouter.updateEvent events (some "U1") input
          = UpdateEventOutcome.ok (applyEventUpdate ev input)
              (events.map (fun e => if e.id == input.id then applyEventUpdate ev input else e)) := by
        unfold appRouter.updateEvent
        rw [hev]
        dsimp only [Option.bind, Option.isSome]
        rw [hg, hiu]
        have hc : optStrTruthy (Option.none : Option String) = false := by decide
        rw [hc]
        have hm : (("U1" : String) != "U1") = false := by decide
        rw [hm]
        simp only [Bool.not_false, Bool.true_and, Bool.false_and, Bool.and_false,
          Bool.false_eq_true, ite_false, ite_true, hres]
      exact ⟨_, _, hmain⟩

/-- A concrete group-scoped row for the C1 witness. -/
def witnessGroupEvent : CalendarEvent :=
  { id := 1, title := "t", description := Option.none, start := some 0,
    end_ := some 1, allDay := false, color := Option.none, label := Option.none,
    location := Option.none, completed := false, userId := "CREATOR",
    messageId := Option.none, groupId := some "G1" }

/-- A concrete personal row owned by U1 for the C1 witness. -/
def witnessPersonalEvent : CalendarEvent :=
  { witnessGroupEvent with groupId := Option.none, userId := "U1" }

/-- A concrete update payload naming userId U1 and groupId G1 for the C1
witness. -/
def witnessUpdateInput : UpdateEventInput :=
  { id := 1, userId := "U1", groupId := some "G1", title := some "t2",
    description := Option.none, start := some 7, end_ := some 8,
    allDay := Option.none, color := Option.none, label := Option.none,
    location := Option.none, completed := Option.none, messageId := Option.none }

theorem updateEvent_scope_bifurcation_witness :
    (∃ r evs, appRouter.updateEvent [witnessGroupEvent] (some "X") witnessUpdateInput
      = UpdateEventOutcome.ok r evs)
    ∧ appRouter.updateEvent [witnessPersonalEvent] (some "U2") witnessUpdateInput
      = UpdateEventOutcome.unauthorized
    ∧ (∃ r evs, appRouter.updateEvent [witnessPersonalEvent] (some "U1") witnessUpdateInput
      = UpdateEventOutcome.ok r evs) := by
  have h1 := (updateEvent_scope_bifurcation [witnessGroupEvent] witnessUpdateInput
    witnessGroupEvent rfl).1 rfl rfl (some "X")
  have h2 := (updateEvent_scope_bifurcation [witnessPersonalEvent] witnessUpdateInput
    witnessPersonalEvent rfl).2 rfl rfl rfl
  exact ⟨h1, h2.1, h2.2⟩

/-! ## Claim C9: the procedure-to-policy map with fail-closed default -/

/-- C9.  Every listed procedure name is dispatched under exactly the
strategy the map declares for it; an unlisted name falls back to Required,
and under Required a call presenting no valid identity never reaches the
procedure: it is rejected before dispatch, with the authentication status
401 whenever the identity endpoint itself did not fail with a server
error. -/
theorem rpcAuthGate_fail_closed (method : String) (authHeader : Option String)
    (verify : TokenVerify)
    (hunlisted : API_AUTH_MAP.lookup method = Option.none)
    (hnoid : presentsValidIdentity authHeader verify = false) :
    (∀ m s, (m, s) ∈ API_AUTH_MAP → authStrategyFor m = s)
    ∧ authStrategyFor method = AuthStrategy.required
    ∧ (∀ u, rpcAuthGate method authHeader verify ≠ AuthResult.proceed u)
    ∧ (identityServiceDown verify = false →
      ∃ msg, rpcAuthGate method authHeader verify = AuthResult.rejected 401 msg) := by
  have hstrat : authStrategyFor method = AuthStrategy.required := by
    unfold authStrategyFor
    rw [hunlisted]
    rfl
  have hgate : rpcAuthGate method authHeader verify = verifyOrpcAuth authHeader verify := by
    unfold rpcAuthGate
    rw [hstrat]
  refine ⟨?_, hstrat, ?_, ?_⟩
  · intro m s hm
    fin_cases hm <;> rfl
  · intro u
    rw [hgate]
    unfold verifyOrpcAuth
    cases hh : validBearerHeader authHeader with
    | false => simp
    | true =>
      simp only [hh, Bool.not_true, Bool.false_eq_true, if_false]
      cases verify with
      | ok uid =>
        exfalso
        unfold presentsValidIdentity at hnoid
        rw [hh] at hnoid
        simp at hnoid
      | httpError status =>
        dsimp only
        split
        · simp
        · split <;> simp
      | netError => simp
  · intro hdown
    rw [hgate]
    unfold verifyOrpcAuth
    cases hh : validBearerHeader authHeader with
    | false => exact ⟨"Access token is required", by simp⟩
    | true =>
      simp only [hh, Bool.not_true, Bool.false_eq_true, if_false]
      cases verify with
      | ok uid =>
        exfalso
        unfold presentsValidIdentity at hnoid
        rw [hh] at hnoid
        simp at hnoid
      | httpError status =>
        unfold identityServiceDown at hdown
        by_cases h401 : status == 401
        · exact ⟨"Invalid access token", by simp [h401]⟩
        · refine ⟨"Request failed with status code " ++ toString status, ?_⟩
          have hlt : ¬ 500 ≤ status := by simpa using hdown
          simp [h401, hlt]
      | netError => exact ⟨"Network Error", rfl⟩

theorem rpcAuthGate_fail_closed_witness :
    authStrategyFor "someUnlistedProcedure" = AuthStrategy.required
    ∧ (∀ u, rpcAuthGate "someUnlistedProcedure" Option.none TokenVerify.netError
        ≠ AuthResult.proceed u)
    ∧ ∃ msg, rpcAuthGate "someUnlistedProcedure" Option.none TokenVerify.netError
        = AuthResult.rejected 401 msg := by
  have h := rpcAuthGate_fail_closed "someUnlistedProcedure" Option.none
    TokenVerify.netError (by decide) (by decide)
  exact ⟨h.2.1, h.2.2.1, h.2.2.2 (by decide)⟩


/-! ## Claim C5: fallback event when the AI returns no candidate -/

theorem runCreateToolCall_no_candidate (events : List CalendarEvent)
    (d : AIApiData) (ctx : AIContext) (timezone : String)
    (hnotool : d.toolCalls.find? (fun tc => tc.toolName == "createEvent") = Option.none) :
    runCreateToolCall events d ctx timezone = (events, d.text, Option.none, false) := by
  unfold runCreateToolCall
  split
  · rfl
  · rw [hnotool]

/-- C5.  When the extraction endpoint answers successfully but reports no
createEvent tool call, and the message has not yet produced an event (the
unique constraint on the event message-id column is free), a fallback
CalendarEvent is still created and appended to the store: its title is the
raw input text, its start is the current time, its end is one hour
(3600000 milliseconds) later, and it is not all-day. -/
theorem ai_no_candidate_creates_fallback_event (events : List CalendarEvent)
    (userMessage : String) (ctx : AIContext) (error : Option String)
    (d : AIApiData) (now : Int)
    (hnotool : d.toolCalls.find? (fun tc => tc.toolName == "createEvent") = Option.none)
    (hfresh : events.any (fun e => e.messageId == some ctx.messageId) = false) :
    ∃ ev,
      (createEventWithAI events userMessage ctx
        (AIApiOutcome.response true error (some d)) now).2.createdEvent = some ev
      ∧ (createEventWithAI events userMessage ctx
        (AIApiOutcome.response true error (some d)) now).2.success = true
      ∧ ev.title = userMessage
      ∧ ev.start = some now
      ∧ ev.end_ = some (now + 3600000)
      ∧ ev.allDay = false
      ∧ (createEventWithAI events userMessage ctx
        (AIApiOutcome.response true error (some d)) now).1 = events ++ [ev] := by
  have hrun := runCreateToolCall_no_candidate events d ctx
    (if optStrTruthy ctx.timezone then ctx.timezone.getD "" else DEFAULT_TIMEZONE) hnotool
  unfold createEventWithAI
  dsimp only
  rw [hrun]
  simp only [Bool.not_true, Bool.false_eq_true, if_false]
  simp only [Bool.false_and, Bool.false_eq_true, if_false]
  unfold createDirectEvent executeCreateEvent CalendarEventController.createEvent
  simp only [Option.isSome_some, Bool.true_and, hfresh, Bool.false_eq_true, if_false]
  refine ⟨_, rfl, trivial, rfl, rfl, ?_, rfl, rfl⟩
  norm_num [DEFAULT_EVENT_DURATION_HOURS]

theorem ai_no_candidate_creates_fallback_event_witness :
    ∃ ev,
      (createEventWithAI [] "隨便寫點東西"
        { userId := "U1", messageId := "M9", timezone := Option.none, groupId := Option.none }
        (AIApiOutcome.response true Option.none
          (some { text := "", toolCalls := [], toolResults := Option.none })) 5000).2.createdEvent
        = some ev
      ∧ (createEventWithAI [] "隨便寫點東西"
        { userId := "U1", messageId := "M9", timezone := Option.none, groupId := Option.none }
        (AIApiOutcome.response true Option.none
          (some { text := "", toolCalls := [], toolResults := Option.none })) 5000).2.success = true
      ∧ ev.title = "隨便寫點東西"
      ∧ ev.start = some 5000
      ∧ ev.end_ = some (5000 + 3600000)
      ∧ ev.allDay = false
      ∧ (createEventWithAI [] "隨便寫點東西"
        { userId := "U1", messageId := "M9", timezone := Option.none, groupId := Option.none }
        (AIApiOutcome.response true Option.none
          (some { text := "", toolCalls := [], toolResults := Option.none })) 5000).1 = [] ++ [ev] :=
  ai_no_candidate_creates_fallback_event [] "隨便寫點東西"
    { userId := "U1", messageId := "M9", timezone := Option.none, groupId := Option.none }
    Option.none { text := "", toolCalls := [], toolResults := Option.none } 5000 rfl rfl

/-! ## Claim C2: redelivered message ids are no-ops -/

/-- C2.  When the external id of an inbound message already has a
StoredMessage, processing it again leaves the datastore unchanged and
performs no write, no AI call, no content download and no reply attempt:
the run ends normally after at most the deduplication read. -/
theorem duplicate_message_is_noop (db : Db) (event : LineEvent)
    (world : WorldInputs) (hasFileController : Bool) (frontendUrl : String)
    (hex : (MessageController.getMessageByMessageId db.messages event.message.id).isSome
      = true) :
    (processMessage db event world hasFileController frontendUrl).1 = db
    ∧ (∀ e ∈ (processMessage db event world hasFileController frontendUrl).2.1,
        Effect.isWrite e = false ∧ Effect.isReply e = false
        ∧ Effect.isAiRequest e = false ∧ Effect.isDownload e = false)
    ∧ (processMessage db event world hasFileController frontendUrl).2.2
        = ProcOutcome.done := by
  obtain ⟨sm, hsm⟩ := Option.isSome_iff_exists.mp hex
  cases hbot : (event.source.type_ == "user" && !optStrTruthy event.source.userId) with
  | true =>
    have heq : processMessage db event world hasFileController frontendUrl
        = (db, [], ProcOutcome.done) := by
      unfold processMessage
      dsimp only
      rw [hbot]
      simp
    rw [heq]
    exact ⟨rfl, fun e he => absurd he (List.not_mem_nil e), rfl⟩
  | false =>
    have heq : processMessage db event world hasFileController frontendUrl
        = (db, [Effect.readMessage event.message.id], ProcOutcome.done) := by
      unfold processMessage
      dsimp only
      rw [hbot]
      simp only [Bool.false_eq_true, if_false]
      rw [hsm]
    rw [heq]
    refine ⟨rfl, ?_, rfl⟩
    intro e he
    rcases List.mem_singleton.mp he with rfl
    exact ⟨rfl, rfl, rfl, rfl⟩

/-- A store already holding the external id M1, for the C2 witness. -/
def witnessDuplicateDb : Db :=
  { messages := [{ id := 1, messageId := "M1", userId := some "U1",
                   content := "hello", messageType := "text",
                   quotedMessageId := Option.none, groupId := Option.none,
                   eventId := Option.none }],
    events := [], files := [] }

/-- A personal text message reusing the external id M1, for the C2
witness. -/
def witnessDuplicateEvent : LineEvent :=
  { message := { id := "M1", type_ := "text", text := some "hello",
                 fileName := Option.none, quotedMessageId := Option.none,
                 mention := Option.none, quoteToken := Option.none },
    source := { type_ := "user", userId := some "U1", groupId := Option.none,
                roomId := Option.none },
    replyToken := some "R" }

/-- An external world for the pipeline witnesses. -/
def witnessWorld : WorldInputs :=
  { aiCall := AIApiOutcome.response true Option.none Option.none, now := 0,
    download := Except.error (plainError "Error" "x") }

theorem duplicate_message_is_noop_witness :
    (processMessage witnessDuplicateDb witnessDuplicateEvent witnessWorld
      false "https://front").1 = witnessDuplicateDb
    ∧ (processMessage witnessDuplicateDb witnessDuplicateEvent witnessWorld
      false "https://front").2.2 = ProcOutcome.done :=
  ⟨(duplicate_message_is_noop witnessDuplicateDb witnessDuplicateEvent witnessWorld
      false "https://front" (by decide)).1,
   (duplicate_message_is_noop witnessDuplicateDb witnessDuplicateEvent witnessWorld
      false "https://front" (by decide)).2.2⟩

/-! ## Claim C10: the bot skips its own messages before any datastore
access -/

/-- C10.  An inbound message whose source type is user but whose userId is
absent (the bot observing its own messages) makes processMessage return
immediately: the effect trace is empty, so no StoredMessage is read or
written, no AI call is made, no event or file is created, and no reply is
sent, and the datastore is unchanged. -/
theorem bot_message_short_circuit (db : Db) (event : LineEvent)
    (world : WorldInputs) (hasFileController : Bool) (frontendUrl : String)
    (h1 : event.source.type_ = "user")
    (h2 : optStrTruthy event.source.userId = false) :
    processMessage db event world hasFileController frontendUrl
      = (db, [], ProcOutcome.done) := by
  unfold processMessage
  simp [h1, h2]

/-- A message the bot sent itself: source type user without a userId, for
the C10 witness. -/
def witnessBotEvent : LineEvent :=
  { message := { id := "M1", type_ := "text", text := some "hello",
                 fileName := Option.none, quotedMessageId := Option.none,
                 mention := Option.none, quoteToken := Option.none },
    source := { type_ := "user", userId := Option.none, groupId := Option.none,
                roomId := Option.none },
    replyToken := Option.none }

theorem bot_message_short_circuit_witness :
    processMessage { messages := [], events := [], files := [] } witnessBotEvent
      witnessWorld false "https://front"
      = ({ messages := [], events := [], files := [] }, [], ProcOutcome.done) :=
  bot_message_short_circuit { messages := [], events := [], files := [] }
    witnessBotEvent witnessWorld false "https://front" (by decide) (by decide)

/-! ## Claim C6: the mention filter on group messages -/

theorem createMessage_fresh (msgs : List StoredMessage) (n : NewMessage)
    (hany : msgs.any (fun m => m.messageId == n.messageId) = false)
    (huid : n.userId.isNone = false) :
    MessageController.createMessage msgs n
      = Except.ok (nextStoredMessageId msgs,
          msgs ++ [{ id := nextStoredMessageId msgs, messageId := n.messageId,
                     userId := n.userId, content := n.content,
                     messageType := n.messageType, quotedMessageId := n.quotedMessageId,
                     groupId := n.groupId, eventId := Option.none }]) := by
  unfold MessageController.createMessage
  rw [hany, huid]
  simp

theorem processText_trace_has_aiRequest (db : Db) (message : LineMessage)
    (source : LineSource) (world : WorldInputs) (savedMessageId : Nat)
    (frontendUrl : String) :
    ((processText db message source world savedMessageId frontendUrl).2.1).any
      Effect.isAiRequest = true := by
  unfold processText
  dsimp only
  repeat' split
  all_goals simp [List.any_append, Effect.isAiRequest]

theorem finishReply_trace_any (db : Db) (trace : List Effect) (rt : Option String)
    (p : Effect → Bool) (h : trace.any p = true) :
    ((finishReply db trace rt).2.1).any p = true := by
  unfold finishReply
  cases rt with
  | none => exact h
  | some t =>
    dsimp only
    split
    · exact h
    · simp [List.any_append, h]

theorem finishReply_fst (db : Db) (trace : List Effect) (rt : Option String) :
    (finishReply db trace rt).1 = db := by
  unfold finishReply
  cases rt with
  | none => rfl
  | some t =>
    dsimp only
    split <;> rfl

/-- A group image message that does not mention the bot, for the C6
counterexample. -/
def witnessGroupFileEvent : LineEvent :=
  { message := { id := "M2", type_ := "image", text := Option.none,
                 fileName := Option.none, quotedMessageId := Option.none,
                 mention := Option.none, quoteToken := Option.none },
    source := { type_ := "group", userId := some "U1", groupId := some "G1",
                roomId := Option.none },
    replyToken := some "R" }

/-- A world whose platform download succeeds, for the C6 counterexample. -/
def witnessFileWorld : WorldInputs :=
  { aiCall := AIApiOutcome.response true Option.none Option.none, now := 0,
    download := Except.ok { byteLength := 10, ext := some "jpg", mime := some "image/jpeg" } }

/-- C6, counterexample.  A group message that does not mention the bot
still proceeds past the deduplication and persistence stage to the file
backup: processing the unmentioned group image message M2 creates a file
record, refuting the claim that every group or room message proceeds only
when it explicitly mentions the bot. -/
theorem group_file_backup_without_mention :
    mentionsBot witnessGroupFileEvent.message = false
    ∧ optStrTruthy (jsOr witnessGroupFileEvent.source.groupId
        witnessGroupFileEvent.source.roomId) = true
    ∧ (processMessage { messages := [], events := [], files := [] }
        witnessGroupFileEvent witnessFileWorld true "https://front").1.files.length = 1 :=
  ⟨rfl, by decide, by decide⟩

/-- C6, amended.  Group and room TEXT messages proceed past the
deduplication and persistence stage to AI extraction only when they
mention the bot: an unmentioned group text message is persisted and then
dropped with no AI call and no reply, while a personal text message or a
mentioning group text message reaches the AI extraction; group and room
FILE messages proceed to the file backup regardless of any mention. -/
theorem mention_gate_amended (db : Db) (event : LineEvent) (world : WorldInputs)
    (hasFileController : Bool) (frontendUrl : String)
    (hfresh : MessageController.getMessageByMessageId db.messages event.message.id
      = Option.none)
    (huser : optStrTruthy event.source.userId = true) :
    (event.message.type_ = "text" →
      optStrTruthy (jsOr event.source.groupId event.source.roomId) = true →
      mentionsBot event.message = false →
      (processMessage db event world hasFileController frontendUrl).1.events = db.events
      ∧ (processMessage db event world hasFileController frontendUrl).1.files = db.files
      ∧ (processMessage db event world hasFileController frontendUrl).2.1
          = [Effect.readMessage event.message.id, Effect.insertMessage event.message.id]
      ∧ (processMessage db event world hasFileController frontendUrl).2.2
          = ProcOutcome.done)
    ∧ (event.message.type_ = "text" →
      (optStrTruthy (jsOr event.source.groupId event.source.roomId) = false
        ∨ mentionsBot event.message = true) →
      ((processMessage db event world hasFileController frontendUrl).2.1).any
        Effect.isAiRequest = true)
    ∧ (event.message.type_ ≠ "text" → hasFileController = true →
      ∀ buf, world.download = Except.ok buf →
      db.files.any (fun f => f.fileId == event.message.id) = false →
      ∃ f, (processMessage db event world hasFileController frontendUrl).1.files
        = db.files ++ [f]) := by
  have hbot : (event.source.type_ == "user" && !optStrTruthy event.source.userId) = false := by
    rw [huser]
    simp
  have hany : db.messages.any (fun m => m.messageId == event.message.id) = false :=
    any_eq_false_of_find?_eq_none _ _ hfresh
  have huid : event.source.userId.isNone = false := optStrTruthy_isSome huser
  refine ⟨?_, ?_, ?_⟩
  · intro htext hgt hm
    unfold processMessage
    dsimp only
    rw [hbot]
    simp only [Bool.false_eq_true, if_false]
    rw [hfresh]
    simp only [MessageController.createMessage, hany, huid, Bool.false_eq_true, if_false]
    rw [htext]
    have htt : (("text" : String) == "text") = true := rfl
    rw [htt]
    simp only [if_true]
    rw [hgt, hm]
    simp
  · intro htext hcase
    have hgate : (optStrTruthy (jsOr event.source.groupId event.source.roomId)
        && !mentionsBot event.message) = false := by
      rcases hcase with h | h <;> simp [h]
    unfold processMessage
    dsimp only
    rw [hbot]
    simp only [Bool.false_eq_true, if_false]
    rw [hfresh]
    simp only [MessageController.createMessage, hany, huid, Bool.false_eq_true, if_false]
    rw [htext]
    have htt : (("text" : String) == "text") = true := rfl
    rw [htt]
    simp only [if_true]
    rw [hgate]
    simp only [Bool.false_eq_true, if_false]
    refine finishReply_trace_any _ _ _ _ ?_
    simp [List.any_append, processText_trace_has_aiRequest]
  · intro hntext hfc buf hdl hfiles
    have hnt : (event.message.type_ == "text") = false := by
      simp [hntext]
    unfold processMessage
    dsimp only
    rw [hbot]
    simp only [Bool.false_eq_true, if_false]
    rw [hfresh]
    simp only [MessageController.createMessage, hany, huid, Bool.false_eq_true, if_false]
    rw [hnt]
    simp only [Bool.false_eq_true, if_false]
    rw [hfc]
    simp only [if_true]
    unfold processFile
    rw [hdl]
    dsimp only
    simp only [FileController.createFile, hfiles, huid, Bool.false_eq_true, if_false]
    rw [finishReply_fst]
    exact ⟨_, rfl⟩

/-- A group text message without a mention, for the C6 amended witness. -/
def witnessGroupTextEvent : LineEvent :=
  { message := { id := "M3", type_ := "text", text := some "hello",
                 fileName := Option.none, quotedMessageId := Option.none,
                 mention := Option.none, quoteToken := Option.none },
    source := { type_ := "group", userId := some "U1", groupId := some "G1",
                roomId := Option.none },
    replyToken := some "R" }

theorem mention_gate_amended_witness :
    (processMessage { messages := [], events := [], files := [] }
      witnessGroupTextEvent witnessWorld false "https://front").2.1
      = [Effect.readMessage "M3", Effect.insertMessage "M3"]
    ∧ (processMessage { messages := [], events := [], files := [] }
      witnessGroupTextEvent witnessWorld false "https://front").2.2
      = ProcOutcome.done := by
  have h := (mention_gate_amended { messages := [], events := [], files := [] }
    witnessGroupTextEvent witnessWorld false "https://front" rfl (by decide)).1
    rfl (by decide) rfl
  exact ⟨h.2.2.1, h.2.2.2⟩
